import Mathlib

/-!
Verification of the session-lifecycle and connection-resilience subsystem of a
WhatsApp platform backend (src/src/services/whatsappService.js and the session
health check service). JavaScript functions are shallowly embedded as Lean
definitions: strings are Lean strings, the record store (a relational table
accessed through a query builder) is a list of rows, in-memory maps are lists
of keys, and asynchronous interleaving is an explicit step relation with one
program counter per in-flight invocation. Timestamps are abstracted as natural
numbers. Machine behaviour of the query builder that matters here: a
single-row lookup that matches zero rows yields an error object (it does not
yield a null row with no error), while a delete that matches zero rows is not
an error.
-/

namespace WhatsappBackend

/-! ## PhoneNormalizer (sendMessage local function normalizePhoneNumber)

The JavaScript first strips every non-digit character, rejects inputs with
fewer than 8 remaining digits, then walks a fixed list of three regular
expression patterns in order, each hypothesising a country-code length k
(k = 3, 2, 1) followed by a spurious zero followed by a minimum number of
subscriber digits (5, 6, 7 respectively, from the regex bounds). The first
pattern that matches and whose zero-dropped result has between 7 and 15
digits is returned; otherwise the stripped digits are returned unchanged. -/

/-- Embedding of phoneNumber.replace of every non-digit character by nothing,
as used throughout the service (the regex character class matches exactly the
ASCII digits here because every input character compared against it is either
an ASCII digit or not a digit at all). -/
def stripNonDigits (s : String) : String :=
  ⟨s.data.filter Char.isDigit⟩

/-- Embedding of one entry of countryCodePatterns applied to the digit-only
string: the pattern with code length p.1 and minimum remaining digits p.2
matches when the string is long enough and the character right after the
hypothesised code is the digit zero; the match result is the string with that
zero removed. On a digit-only string the digit character classes of the regex
hold automatically, and the final greedy group captures the whole remainder. -/
def matchPattern (p : Nat × Nat) (ds : List Char) : Option (List Char) :=
  if p.1 + 1 + p.2 ≤ ds.length ∧ ds.getD p.1 ' ' = '0' then
    some (ds.take p.1 ++ ds.drop (p.1 + 1))
  else none

/-- The fixed pattern list of normalizePhoneNumber: 3-digit, then 2-digit,
then 1-digit country-code hypotheses, with the minimum counts of digits
required after the dropped zero taken from the regex bounds. -/
def countryCodePatterns : List (Nat × Nat) := [(3, 5), (2, 6), (1, 7)]

/-- Embedding of the for-loop over countryCodePatterns: on a match whose
result has between 7 and 15 digits the loop returns it; a match with an
out-of-range length falls through to the next pattern, as does a non-match. -/
def correctLoop (ds : List Char) : List (Nat × Nat) → Option (List Char)
  | [] => none
  | p :: rest =>
    match matchPattern p ds with
    | some nd =>
      if 7 ≤ nd.length ∧ nd.length ≤ 15 then some nd
      else correctLoop ds rest
    | none => correctLoop ds rest

/-- The leading-zero correction phase of normalizePhoneNumber. -/
def correctLeadingZero (ds : List Char) : Option (List Char) :=
  correctLoop ds countryCodePatterns

/-- Embedding of normalizePhoneNumber: strip non-digits, reject fewer than 8
digits (the falsy check on the empty string is subsumed), apply the
leading-zero correction, and otherwise return the digits as they are. The
JavaScript returns null on rejection, embedded as none. -/
def normalizePhoneNumber (phoneNumber : String) : Option String :=
  let digits := (stripNonDigits phoneNumber).data
  if digits.length < 8 then none
  else
    match correctLeadingZero digits with
    | some nd => some ⟨nd⟩
    | none => some ⟨digits⟩

/-! Spec-side renderings of the correction phase, used to settle the claims
that describe it in words. The first follows the claim text literally: try
the 3, 2, 1 digit code-length hypotheses in that order, where a hypothesis
only requires a zero right after the hypothesised code, and accept the first
whose result has between 7 and 15 digits. The second adds the minimum
subscriber-digit requirement that the source regexes impose. -/

/-- Acceptance window of the claim text: between 7 and 15 digits total. -/
def claimAccept (nd : List Char) : Bool :=
  decide (7 ≤ nd.length) && decide (nd.length ≤ 15)

/-- Literal reading of the claim: hypothesis k applies as soon as a zero
follows the hypothesised k-digit code; its result drops that zero. -/
def claimHypothesis (k : Nat) (ds : List Char) : Option (List Char) :=
  if ds.getD k ' ' = '0' then some (ds.take k ++ ds.drop (k + 1)) else none

/-- Correction predicted by the claim text taken literally: first accepted
hypothesis in the order 3, 2, 1, else the digits unchanged. -/
def claimCorrection (ds : List Char) : List Char :=
  match ([3, 2, 1].filterMap (fun k => claimHypothesis k ds)).find? claimAccept with
  | some nd => nd
  | none => ds

/-- Minimum number of digits the source regex for code length k requires
after the dropped zero: 5, 6, 7 for k = 3, 2, 1. -/
def minRestFor (k : Nat) : Nat := 8 - k

/-- Amended hypothesis: a zero follows the hypothesised code and at least
minRestFor k digits remain after the zero. -/
def specHypothesis (k : Nat) (ds : List Char) : Option (List Char) :=
  if ds.getD k ' ' = '0' ∧ k + 1 + minRestFor k ≤ ds.length then
    some (ds.take k ++ ds.drop (k + 1))
  else none

/-- Correction predicted by the amended claim: first accepted amended
hypothesis in the order 3, 2, 1, else the digits unchanged. -/
def specCorrection (ds : List Char) : List Char :=
  match ([3, 2, 1].filterMap (fun k => specHypothesis k ds)).find? claimAccept with
  | some nd => nd
  | none => ds

example : normalizePhoneNumber "+212 0655-927999" = some "212655927999" := by decide
example : normalizePhoneNumber "212655927999" = some "212655927999" := by decide
example : normalizePhoneNumber "10345678" = some "10345678" := by decide
example : claimCorrection ("10345678".data) = "1345678".data := by decide
example : normalizePhoneNumber "+1 (555) 123-4567" = some "15551234567" := by decide

/-! ## Recipient formatting and sendMessage

The sendMessage method looks up the client handle, requires the CONNECTED
state, formats the recipient (group branch for an at-g-us marker, individual
branch for an at-c-us marker, otherwise normalization plus the individual
marker), sends on the wire, then inserts a sent message row whose to field is
the original argument; an insert error there is logged but not raised. Every
error thrown inside the method is caught by the outer catch, which inserts a
failed message row and rethrows. Whether the wire send and the log insert
succeed is environment behaviour, modelled by flags. -/

/-- Character-list test of whether the second list starts with the first. -/
def leadsWith : List Char → List Char → Bool
  | [], _ => true
  | _ :: _, [] => false
  | a :: as, b :: bs => a == b && leadsWith as bs

/-- Character-list test of whether the first list occurs contiguously inside
the second. -/
def occursIn : List Char → List Char → Bool
  | pat, [] => pat.isEmpty
  | pat, b :: bs => leadsWith pat (b :: bs) || occursIn pat bs

/-- Embedding of the JavaScript substring test s.includes(pat). -/
def containsSubstr (s pat : String) : Bool :=
  occursIn pat.data s.data

/-- Embedding of the JavaScript String.prototype.trim: whitespace removed
from both ends. -/
def trimChars (s : String) : String :=
  ⟨((s.data.dropWhile Char.isWhitespace).reverse.dropWhile Char.isWhitespace).reverse⟩

/-- Embedding of s.split(at-sign)[0]: the characters before the first
at-sign. -/
def beforeAt (s : String) : String :=
  ⟨s.data.takeWhile (fun c => c ≠ '@')⟩

/-- The three-way branch of the recipient formatting block: group marker
branch, individual marker branch, and the marker-free branch that normalizes
and appends the individual marker. -/
def formatCore (t : String) : Except String String :=
  if containsSubstr t "@g.us" then
    Except.ok (stripNonDigits (beforeAt t) ++ "@g.us")
  else if containsSubstr t "@c.us" then
    Except.ok (stripNonDigits (beforeAt t) ++ "@c.us")
  else
    match normalizePhoneNumber t with
    | none => Except.error "Invalid phone number: must contain at least 8 digits after normalization."
    | some n => Except.ok (n ++ "@c.us")

/-- The final validation of sendMessage: a formatted number shorter than 13
characters is rejected; the falsy check on the empty string is subsumed by
the length check. -/
def lengthGuard (r : Except String String) : Except String String :=
  match r with
  | Except.error e => Except.error e
  | Except.ok f =>
    if f.length < 13 then Except.error "Invalid phone number format after processing"
    else Except.ok f

/-- The recipient formatting block of sendMessage: trim, branch on the
address markers, validate the length. Errors are the thrown messages,
truncated to their fixed prefixes. -/
def formatRecipient (toAddr : String) : Except String String :=
  lengthGuard (formatCore (trimChars toAddr))

/-- A row of the messages table; the timestamp column is abstracted away
since no claim mentions it. -/
structure MessageRow where
  session_id : String
  toCol : String
  message : String
  status : String
deriving DecidableEq

/-- Environment behaviour a single sendMessage call can observe: whether a
client handle is registered for the session, the state the client reports,
whether the wire send succeeds and the message identifier it returns, and
whether the insert of the sent row into the messages table errors. -/
structure SendEnv where
  clientExists : Bool
  clientState : String
  wireOk : Bool
  wireMsgId : String
  logInsertFails : Bool
deriving DecidableEq

/-- The value sendMessage returns on success: the fields of the logged row
when the insert succeeded (spread of data), plus the formatted number and
the wire message identifier. -/
structure SendResult where
  formatted_number : String
  whatsapp_message_id : Option String
  logged : Option MessageRow

/-- Observable outcome of one sendMessage call: the returned value or the
thrown error, the rows actually written to the messages table, and the wire
calls made on the client. -/
structure SendOutcome where
  result : Except String SendResult
  rows : List MessageRow
  wireCalls : List (String × String)

/-- The failed message row the outer catch inserts. -/
def failedRow (sessionId toAddr message : String) : MessageRow :=
  { session_id := sessionId, toCol := toAddr, message := message, status := "failed" }

/-- Embedding of sendMessage. The outer catch inserts a failed row and
rethrows for every error raised inside the method body, which is why every
error branch also writes the failed row. When the wire send succeeds and the
log insert fails, the error is only logged: the call returns success with no
row written. -/
def sendMessage (env : SendEnv) (sessionId toAddr message : String) : SendOutcome :=
  if ¬ env.clientExists then
    { result := Except.error "Session not found or not connected",
      rows := [failedRow sessionId toAddr message], wireCalls := [] }
  else if env.clientState ≠ "CONNECTED" then
    { result := Except.error "WhatsApp client is not connected",
      rows := [failedRow sessionId toAddr message], wireCalls := [] }
  else
    match formatRecipient toAddr with
    | Except.error e =>
      { result := Except.error e,
        rows := [failedRow sessionId toAddr message], wireCalls := [] }
    | Except.ok formatted =>
      if ¬ env.wireOk then
        { result := Except.error "Failed to send message",
          rows := [failedRow sessionId toAddr message],
          wireCalls := [(formatted, message)] }
      else
        let sentRow : MessageRow :=
          { session_id := sessionId, toCol := toAddr, message := message, status := "sent" }
        if env.logInsertFails then
          { result := Except.ok
              { formatted_number := formatted,
                whatsapp_message_id := some env.wireMsgId, logged := none },
            rows := [], wireCalls := [(formatted, message)] }
        else
          { result := Except.ok
              { formatted_number := formatted,
                whatsapp_message_id := some env.wireMsgId, logged := some sentRow },
            rows := [sentRow], wireCalls := [(formatted, message)] }

/-! ## Lifecycle handler for the disconnected event

The handler stops the keepalive, writes status disconnected with the pairing
code cleared, removes the handle from the map, and, exactly when the reason
differs from the logout constant, schedules a reconnect attempt after 10
seconds (10000 milliseconds); on failure of that attempt a second one is
scheduled from inside the callback, which is outside the handler itself. -/

/-- Atomic effects the disconnected handler can issue, in order. -/
inductive HandlerAction where
  | stopKeepalive : HandlerAction
  | recordWrite (status : String) (clearQr : Bool) : HandlerAction
  | removeHandle : HandlerAction
  | scheduleReconnect (delayMs : Nat) : HandlerAction
deriving DecidableEq

/-- Embedding of the disconnected event handler of setupEventHandlers as the
ordered list of effects it issues for a given reason string. -/
def disconnectedHandler (reason : String) : List HandlerAction :=
  [HandlerAction.stopKeepalive,
   HandlerAction.recordWrite "disconnected" true,
   HandlerAction.removeHandle] ++
  (if reason = "LOGOUT" then [] else [HandlerAction.scheduleReconnect 10000])

/-! ## Session rows and the keepalive probe -/

/-- A row of the sessions table. Timestamps are naturals, absent values are
none. -/
structure SessionRow where
  id : String
  user_id : Option String
  session_name : String
  status : String
  phone_number : Option String
  qr_code : Option String
  last_seen : Option Nat
  last_connected_at : Option Nat
  updated_at : Nat
  created_at : Nat
deriving DecidableEq

/-- Embedding of one tick of the enhanced keepalive interval body, given the
state the client reports (the early exit for a replaced client instance and
the logging are omitted as they write nothing). Returns the updated row and
whether reconnectSession was invoked. The branch for a CONNECTED report
writes updated_at, last_seen and also status connected; the branch for
CONNECTING or PAIRING writes updated_at only; every other report, and a
throwing state query, writes status disconnected and invokes reconnection. -/
def keepaliveTick (state : String) (now : Nat) (row : SessionRow) :
    SessionRow × Bool :=
  if state = "CONNECTED" then
    ({ row with updated_at := now, last_seen := some now, status := "connected" }, false)
  else if state = "CONNECTING" ∨ state = "PAIRING" then
    ({ row with updated_at := now }, false)
  else
    ({ row with status := "disconnected", updated_at := now }, true)

/-! ## AuthStore locations

The constructor fixes the auth root as the join of the working directory and
a fixed directory name. The deleteSession cleanup removes the directory named
session-id under the root, while restoreAllSessions checks presence of the
directory named by the bare id under the root (and of its Default child, not
material to the path comparison). Segment joining appends a separator; no
segment here contains one, so no normalisation applies. -/

/-- Embedding of path.join for one separator-free segment appended to a
base. -/
def pathJoin (a b : String) : String := a ++ "/" ++ b

/-- The auth data root fixed by the service constructor. -/
def authDataPath (cwd : String) : String := pathJoin cwd ".wwebjs_auth"

/-- The path deleteSession removes auth material from. -/
def deleteSessionAuthPath (cwd sessionId : String) : String :=
  pathJoin (authDataPath cwd) ("session-" ++ sessionId)

/-- The path restoreAllSessions checks for the physical presence of auth
material. -/
def restoreAuthPath (cwd sessionId : String) : String :=
  pathJoin (authDataPath cwd) sessionId

/-! ## Service state and deleteSession -/

/-- State of the service a deleteSession call reads and writes: the sessions
table, the ids registered in the in-memory client map, the ids with a
running keepalive interval, and the set of existing auth directories. -/
structure ServiceState where
  sessions : List SessionRow
  clients : List String
  keepalives : List String
  authDirs : List String
deriving DecidableEq

/-- Embedding of the single-row ownership lookup used by deleteSession. Only
the data field of the response is destructured there, so this returns the
row when exactly one matches and none otherwise, with the error object of a
zero-row lookup discarded. -/
def findSessionRow (rows : List SessionRow) (sessionId : String) : Option SessionRow :=
  rows.find? (fun r => r.id == sessionId)

/-- Embedding of deleteSession: the ownership check (skipped when the lookup
produced no row), the destroy of a registered client preceded by the stop of
its keepalive, the best-effort removal of the session-id auth directory, and
the row delete, which the record store accepts even when zero rows match. -/
def deleteSession (cwd : String) (st : ServiceState) (sessionId : String)
    (userId : Option String) : Except String ServiceState :=
  let owned : Bool :=
    match userId with
    | none => true
    | some uid =>
      match findSessionRow st.sessions sessionId with
      | none => true
      | some row => row.user_id == some uid
  if ¬ owned then Except.error "Unauthorized: You do not own this session"
  else
    let st1 :=
      if st.clients.contains sessionId then
        { st with keepalives := st.keepalives.filter (fun i => i ≠ sessionId),
                  clients := st.clients.filter (fun i => i ≠ sessionId) }
      else st
    let authP := deleteSessionAuthPath cwd sessionId
    let st2 := { st1 with authDirs := st1.authDirs.filter (fun p => p ≠ authP) }
    Except.ok { st2 with sessions := st2.sessions.filter (fun r => r.id ≠ sessionId) }

/-! ## reconnectSession as an interleaved step machine

Embedding of reconnectSession for one fixed session id, with the suspension
points of the method made explicit so that concurrent invocations can be
interleaved. The atomic blocks, separated by awaited operations, are:

first, entry up to the awaited record lookup (getSession), which either
returns the row or throws, because a single-row lookup matching zero rows
yields an error object and getSession rethrows any error (its caller has a
null check, but a null row is never actually returned);

second, after the lookup resolves: the dead null check, the map existence
check, and the issue of the awaited status-connecting record write;

third, after that write resolves: construction of the client, registration
in the map, handler wiring, and the start of the awaited initialize;

fourth, resumption after initialize.

The catch block runs when the lookup threw: it issues the status-disconnected
write and schedules a retry after 5 minutes. -/

/-- Program counter of one reconnectSession invocation. -/
inductive ReconnectPhase where
  | start : ReconnectPhase
  | checkPoint : ReconnectPhase
  | register : ReconnectPhase
  | initWait : ReconnectPhase
  | failed : ReconnectPhase
  | done : ReconnectPhase
deriving DecidableEq

/-- Shared state the interleaved invocations read and write: whether the
persisted row exists, whether a handle is registered in the map for the id,
and counters of client constructions, status-connecting writes,
status-disconnected writes, and scheduled delayed retries. -/
structure MgrState where
  recordExists : Bool
  handleRegistered : Bool
  clientsCreated : Nat
  connectingWrites : Nat
  disconnectedWrites : Nat
  retriesScheduled : Nat
deriving DecidableEq

/-- One atomic block of one reconnectSession invocation. -/
def reconnectStep (s : MgrState) (pc : ReconnectPhase) : MgrState × ReconnectPhase :=
  match pc with
  | ReconnectPhase.start =>
    if s.recordExists then (s, ReconnectPhase.checkPoint) else (s, ReconnectPhase.failed)
  | ReconnectPhase.checkPoint =>
    if s.handleRegistered then (s, ReconnectPhase.done)
    else ({ s with connectingWrites := s.connectingWrites + 1 }, ReconnectPhase.register)
  | ReconnectPhase.register =>
    ({ s with clientsCreated := s.clientsCreated + 1, handleRegistered := true },
     ReconnectPhase.initWait)
  | ReconnectPhase.initWait => (s, ReconnectPhase.done)
  | ReconnectPhase.failed =>
    ({ s with disconnectedWrites := s.disconnectedWrites + 1,
              retriesScheduled := s.retriesScheduled + 1 },
     ReconnectPhase.done)
  | ReconnectPhase.done => (s, ReconnectPhase.done)

/-- Run a schedule: at each entry, the named task executes its next atomic
block; an index with no task is a skip. -/
def runSchedule : MgrState → List ReconnectPhase → List Nat → MgrState × List ReconnectPhase
  | s, pcs, [] => (s, pcs)
  | s, pcs, i :: rest =>
    match pcs.get? i with
    | some pc =>
      let r := reconnectStep s pc
      runSchedule r.1 (pcs.set i r.2) rest
    | none => runSchedule s pcs rest

example :
    (runSchedule
      { recordExists := true, handleRegistered := false, clientsCreated := 0,
        connectingWrites := 0, disconnectedWrites := 0, retriesScheduled := 0 }
      [ReconnectPhase.start, ReconnectPhase.start]
      [0, 1, 0, 1, 0, 1, 0, 1]).1.connectingWrites = 2 := by decide

example :
    (runSchedule
      { recordExists := false, handleRegistered := false, clientsCreated := 0,
        connectingWrites := 0, disconnectedWrites := 0, retriesScheduled := 0 }
      [ReconnectPhase.start]
      [0, 0]).1.retriesScheduled = 1 := by decide

example :
    (runSchedule
      { recordExists := true, handleRegistered := false, clientsCreated := 0,
        connectingWrites := 0, disconnectedWrites := 0, retriesScheduled := 0 }
      [ReconnectPhase.start, ReconnectPhase.start]
      [0, 0, 0, 0, 1, 1, 1, 1]).1.connectingWrites = 1 := by decide

/-! ## Theorems for the claims -/

/-- C1: for every disconnected lifecycle event, a reason equal to the logout
constant never makes the handler schedule a reconnect attempt, while any
other reason makes it schedule one after the fixed short delay of 10000
milliseconds. -/
theorem C1_logout_is_terminal (reason : String) :
    (reason = "LOGOUT" →
      ∀ d, HandlerAction.scheduleReconnect d ∉ disconnectedHandler reason) ∧
    (reason ≠ "LOGOUT" →
      HandlerAction.scheduleReconnect 10000 ∈ disconnectedHandler reason) := by
  constructor
  · intro h d hm
    simp [disconnectedHandler, h] at hm
  · intro h
    simp [disconnectedHandler, h]

/-- Witness for C1 at the logout reason and at a transient reason. -/
theorem C1_logout_is_terminal_witness :
    (∀ d, HandlerAction.scheduleReconnect d ∉ disconnectedHandler "LOGOUT") ∧
    HandlerAction.scheduleReconnect 10000 ∈ disconnectedHandler "NAVIGATION" :=
  ⟨(C1_logout_is_terminal "LOGOUT").1 rfl,
   (C1_logout_is_terminal "NAVIGATION").2 (by decide)⟩

/-- C2, evaluation at the failing schedule: two reconnectSession invocations
for the same id, both entered while no handle exists and no record is
missing, interleaved at the awaited status-connecting record write that the
method performs between the map existence check and the map registration.
Both invocations pass the check, so the run records two connecting
transitions and constructs two clients, refuting the claimed at most one
connecting transition and the claimed absence of a suspension point between
check and registration; the map itself ends with a single registered entry
because the second registration overwrites the first, orphaning a live
client. -/
theorem C2_reconnect_race_two_connecting_writes :
    (runSchedule
      { recordExists := true, handleRegistered := false, clientsCreated := 0,
        connectingWrites := 0, disconnectedWrites := 0, retriesScheduled := 0 }
      [ReconnectPhase.start, ReconnectPhase.start]
      [0, 1, 0, 1, 0, 1, 0, 1]) =
    ({ recordExists := true, handleRegistered := true, clientsCreated := 2,
       connectingWrites := 2, disconnectedWrites := 0, retriesScheduled := 0 },
     [ReconnectPhase.done, ReconnectPhase.done]) := by decide

/-- C3, evaluation at the failing input: reconnectSession for an id whose
persisted row does not exist. The single-row lookup yields an error, so
getSession throws and the catch block runs: no client is constructed and
nothing is registered, as the claim states, but a status-disconnected write
is issued and a delayed retry is scheduled, contradicting the claimed
abort with no retry (the null check that was meant to abort is dead code). -/
theorem C3_missing_record_schedules_retry :
    (runSchedule
      { recordExists := false, handleRegistered := false, clientsCreated := 0,
        connectingWrites := 0, disconnectedWrites := 0, retriesScheduled := 0 }
      [ReconnectPhase.start]
      [0, 0]) =
    ({ recordExists := false, handleRegistered := false, clientsCreated := 0,
       connectingWrites := 0, disconnectedWrites := 1, retriesScheduled := 1 },
     [ReconnectPhase.done]) := by decide

/-- C4 counterexample: a keepalive probe that observes the client as
genuinely connected while the persisted row carries a different status
overwrites that status with connected, so the write does not leave every
non-timestamp field unchanged. -/
def driftedRow : SessionRow :=
  { id := "s1", user_id := some "u1", session_name := "Shop",
    status := "disconnected", phone_number := some "212655927999",
    qr_code := none, last_seen := some 3, last_connected_at := some 2,
    updated_at := 4, created_at := 1 }

/-- C4 counterexample theorem: at the drifted row the connected-branch
keepalive write changes the status field, refuting the claim that only
timestamp fields are modified. -/
theorem C4_keepalive_status_write_counterexample :
    (keepaliveTick "CONNECTED" 5 driftedRow).1.status ≠ driftedRow.status ∧
    (keepaliveTick "CONNECTED" 5 driftedRow).1.status = "connected" ∧
    driftedRow.status = "disconnected" := by decide

/-- C4 amended: the keepalive write for a genuinely connected probe touches
exactly updated_at, last_seen and status, setting status to connected; every
other field is unchanged, so the status field is preserved exactly when the
row already carried connected. -/
theorem C4_keepalive_connected_write_amended (now : Nat) (row : SessionRow) :
    ((keepaliveTick "CONNECTED" now row).1.id = row.id ∧
     (keepaliveTick "CONNECTED" now row).1.user_id = row.user_id ∧
     (keepaliveTick "CONNECTED" now row).1.session_name = row.session_name ∧
     (keepaliveTick "CONNECTED" now row).1.phone_number = row.phone_number ∧
     (keepaliveTick "CONNECTED" now row).1.qr_code = row.qr_code ∧
     (keepaliveTick "CONNECTED" now row).1.last_connected_at = row.last_connected_at ∧
     (keepaliveTick "CONNECTED" now row).1.created_at = row.created_at) ∧
    (keepaliveTick "CONNECTED" now row).1.updated_at = now ∧
    (keepaliveTick "CONNECTED" now row).1.last_seen = some now ∧
    (keepaliveTick "CONNECTED" now row).1.status = "connected" ∧
    ((keepaliveTick "CONNECTED" now row).1.status = row.status ↔
      row.status = "connected") := by
  refine ⟨⟨rfl, rfl, rfl, rfl, rfl, rfl, rfl⟩, rfl, rfl, rfl, ?_⟩
  show ("connected" = row.status ↔ row.status = "connected")
  exact eq_comm

/-- C9 counterexample: at a concrete working directory and session id, the
path deleteSession removes auth material from and the path
restoreAllSessions checks for auth material differ. -/
theorem C9_auth_paths_differ_counterexample :
    deleteSessionAuthPath "/app" "abc" = "/app/.wwebjs_auth/session-abc" ∧
    restoreAuthPath "/app" "abc" = "/app/.wwebjs_auth/abc" ∧
    deleteSessionAuthPath "/app" "abc" ≠ restoreAuthPath "/app" "abc" := by decide

/-- C9 amended: each of the two sites derives its location
deterministically from the session id alone, but the two derivations
disagree for every id: deleteSession removes the directory prefixed with
session-, which is the location the restore path would associate with the
prefixed id, never the location the restore path checks for the id itself. -/
theorem C9_auth_paths_differ (cwd sessionId : String) :
    deleteSessionAuthPath cwd sessionId =
      restoreAuthPath cwd ("session-" ++ sessionId) ∧
    deleteSessionAuthPath cwd sessionId ≠ restoreAuthPath cwd sessionId := by
  refine ⟨rfl, ?_⟩
  intro h
  have hlen := congrArg String.length h
  have h8 : ("session-" : String).length = 8 := rfl
  simp only [deleteSessionAuthPath, restoreAuthPath, pathJoin, authDataPath,
    String.length_append, h8] at hlen
  omega

/-- Helper for C5: in the marker-free branch, a successful formatting result
is exactly the normalized digits with the individual-contact marker
appended. -/
lemma formatRecipient_no_marker (toAddr f : String)
    (hg : containsSubstr (trimChars toAddr) "@g.us" = false)
    (hc : containsSubstr (trimChars toAddr) "@c.us" = false)
    (hf : formatRecipient toAddr = Except.ok f) :
    ∃ n, normalizePhoneNumber (trimChars toAddr) = some n ∧ f = n ++ "@c.us" := by
  unfold formatRecipient formatCore at hf
  rw [if_neg (by simp [hg]), if_neg (by simp [hc])] at hf
  cases hn : normalizePhoneNumber (trimChars toAddr) with
  | none =>
    rw [hn] at hf
    simp [lengthGuard] at hf
  | some n =>
    rw [hn] at hf
    simp only [lengthGuard] at hf
    by_cases hlen : (n ++ "@c.us").length < 13
    · rw [if_pos hlen] at hf
      simp at hf
    · rw [if_neg hlen] at hf
      injection hf with h
      exact ⟨n, rfl, h.symm⟩

/-- C5: a successful send stores message rows whose recipient column is the
literal original argument, makes exactly one wire call, whose address is the
returned formatted number, and in the marker-free case that address is the
normalized digits with the individual-contact marker appended; at the
concrete example the stored column is the original string and the wire
receives the canonical form. -/
theorem C5_send_stores_original_recipient :
    (∀ env sessionId toAddr message r,
        (sendMessage env sessionId toAddr message).result = Except.ok r →
        (∀ row ∈ (sendMessage env sessionId toAddr message).rows, row.toCol = toAddr) ∧
        (sendMessage env sessionId toAddr message).wireCalls =
          [(r.formatted_number, message)] ∧
        (containsSubstr (trimChars toAddr) "@g.us" = false →
         containsSubstr (trimChars toAddr) "@c.us" = false →
         ∃ n, normalizePhoneNumber (trimChars toAddr) = some n ∧
           r.formatted_number = n ++ "@c.us")) ∧
    sendMessage
        { clientExists := true, clientState := "CONNECTED", wireOk := true,
          wireMsgId := "wid1", logInsertFails := false }
        "s1" "+1 (555) 123-4567" "hi" =
      { result := Except.ok
          { formatted_number := "15551234567@c.us",
            whatsapp_message_id := some "wid1",
            logged := some { session_id := "s1", toCol := "+1 (555) 123-4567",
                             message := "hi", status := "sent" } },
        rows := [{ session_id := "s1", toCol := "+1 (555) 123-4567",
                   message := "hi", status := "sent" }],
        wireCalls := [("15551234567@c.us", "hi")] } := by
  constructor
  · intro env sessionId toAddr message r hr
    by_cases hce : env.clientExists = true
    · by_cases hcs : env.clientState = "CONNECTED"
      · cases hfmt : formatRecipient toAddr with
        | error e =>
          simp [sendMessage, hce, hcs, hfmt] at hr
        | ok f =>
          by_cases hw : env.wireOk = true
          · by_cases hl : env.logInsertFails = true
            · have houtcome : sendMessage env sessionId toAddr message =
                  { result := Except.ok
                      { formatted_number := f,
                        whatsapp_message_id := some env.wireMsgId, logged := none },
                    rows := [], wireCalls := [(f, message)] } := by
                simp [sendMessage, hce, hcs, hfmt, hw, hl]
              rw [houtcome] at hr ⊢
              simp only [Except.ok.injEq] at hr
              subst hr
              refine ⟨by simp, rfl, ?_⟩
              intro hg hc
              exact formatRecipient_no_marker toAddr f hg hc hfmt
            · have hl2 : env.logInsertFails = false := by
                cases h : env.logInsertFails
                · rfl
                · exact absurd h hl
              have houtcome : sendMessage env sessionId toAddr message =
                  { result := Except.ok
                      { formatted_number := f,
                        whatsapp_message_id := some env.wireMsgId,
                        logged := some { session_id := sessionId, toCol := toAddr,
                                         message := message, status := "sent" } },
                    rows := [{ session_id := sessionId, toCol := toAddr,
                               message := message, status := "sent" }],
                    wireCalls := [(f, message)] } := by
                simp [sendMessage, hce, hcs, hfmt, hw, hl2]
              rw [houtcome] at hr ⊢
              simp only [Except.ok.injEq] at hr
              subst hr
              refine ⟨by simp, rfl, ?_⟩
              intro hg hc
              exact formatRecipient_no_marker toAddr f hg hc hfmt
          · have hw2 : env.wireOk = false := by
              cases h : env.wireOk
              · rfl
              · exact absurd h hw
            simp [sendMessage, hce, hcs, hfmt, hw2] at hr
      · simp [sendMessage, hce, hcs] at hr
    · have hce2 : env.clientExists = false := by
        cases h : env.clientExists
        · rfl
        · exact absurd h hce
      simp [sendMessage, hce2] at hr
  · rfl

/-- Witness for C5 applying the universal part at the concrete example. -/
theorem C5_send_stores_original_recipient_witness :
    (∀ row ∈ (sendMessage
        { clientExists := true, clientState := "CONNECTED", wireOk := true,
          wireMsgId := "wid1", logInsertFails := false }
        "s1" "+1 (555) 123-4567" "hi").rows, row.toCol = "+1 (555) 123-4567") ∧
    (sendMessage
        { clientExists := true, clientState := "CONNECTED", wireOk := true,
          wireMsgId := "wid1", logInsertFails := false }
        "s1" "+1 (555) 123-4567" "hi").wireCalls = [("15551234567@c.us", "hi")] :=
  by
  have h := (C5_send_stores_original_recipient.1
    { clientExists := true, clientState := "CONNECTED", wireOk := true,
      wireMsgId := "wid1", logInsertFails := false }
    "s1" "+1 (555) 123-4567" "hi"
    { formatted_number := "15551234567@c.us", whatsapp_message_id := some "wid1",
      logged := some { session_id := "s1", toCol := "+1 (555) 123-4567",
                       message := "hi", status := "sent" } }
    (by rfl))
  exact ⟨h.1, h.2.1⟩

/-- C8: when the wire send succeeds and the insert of the sent row into the
message log fails, the call still returns success carrying the formatted
number and the wire message identifier, no error is raised, no row at all is
written, and in particular no failed row is written. -/
theorem C8_log_failure_not_a_send_failure
    (env : SendEnv) (sessionId toAddr message f : String)
    (hce : env.clientExists = true) (hcs : env.clientState = "CONNECTED")
    (hw : env.wireOk = true) (hl : env.logInsertFails = true)
    (hf : formatRecipient toAddr = Except.ok f) :
    (sendMessage env sessionId toAddr message).result =
      Except.ok { formatted_number := f,
                  whatsapp_message_id := some env.wireMsgId, logged := none } ∧
    (sendMessage env sessionId toAddr message).rows = [] ∧
    (∀ row ∈ (sendMessage env sessionId toAddr message).rows,
      row.status ≠ "failed") := by
  have houtcome : sendMessage env sessionId toAddr message =
      { result := Except.ok
          { formatted_number := f,
            whatsapp_message_id := some env.wireMsgId, logged := none },
        rows := [], wireCalls := [(f, message)] } := by
    simp [sendMessage, hce, hcs, hf, hw, hl]
  rw [houtcome]
  exact ⟨rfl, rfl, by simp⟩

/-- Witness for C8 at a concrete environment and input. -/
theorem C8_log_failure_not_a_send_failure_witness :
    (sendMessage
        { clientExists := true, clientState := "CONNECTED", wireOk := true,
          wireMsgId := "wid2", logInsertFails := true }
        "s1" "+212 0655-927999" "hello").result =
      Except.ok { formatted_number := "212655927999@c.us",
                  whatsapp_message_id := some "wid2", logged := none } ∧
    (sendMessage
        { clientExists := true, clientState := "CONNECTED", wireOk := true,
          wireMsgId := "wid2", logInsertFails := true }
        "s1" "+212 0655-927999" "hello").rows = [] :=
  by
  have h := C8_log_failure_not_a_send_failure
    { clientExists := true, clientState := "CONNECTED", wireOk := true,
      wireMsgId := "wid2", logInsertFails := true }
    "s1" "+212 0655-927999" "hello" "212655927999@c.us"
    rfl rfl rfl rfl (by rfl)
  exact ⟨h.1, h.2.1⟩

/-- Helper for C7: a source pattern carrying the minimum digit bound of its
regex equals the amended claim hypothesis for the same code length. -/
lemma matchPattern_eq_specHypothesis (k : Nat) (ds : List Char) :
    matchPattern (k, minRestFor k) ds = specHypothesis k ds := by
  by_cases h1 : ds.getD k ' ' = '0' <;>
    by_cases h2 : k + 1 + minRestFor k ≤ ds.length <;>
      simp [matchPattern, specHypothesis, h1, h2]

/-- Helper for C7: one unfolding step relating the source loop to the
first-accepted-hypothesis search of the amended claim. -/
lemma correctLoop_cons_eq (ds : List Char) (k : Nat) (rest : List (Nat × Nat))
    (restSpec : List Nat)
    (hrest : correctLoop ds rest =
      (restSpec.filterMap (fun j => specHypothesis j ds)).find? claimAccept) :
    correctLoop ds ((k, minRestFor k) :: rest) =
      ((k :: restSpec).filterMap (fun j => specHypothesis j ds)).find? claimAccept := by
  rw [List.filterMap_cons]
  simp only [correctLoop, matchPattern_eq_specHypothesis]
  cases h : specHypothesis k ds with
  | none => exact hrest
  | some nd =>
    show (if 7 ≤ nd.length ∧ nd.length ≤ 15 then some nd else correctLoop ds rest) =
      List.find? claimAccept (nd :: List.filterMap (fun j => specHypothesis j ds) restSpec)
    cases hacc : claimAccept nd with
    | true =>
      have hprop : 7 ≤ nd.length ∧ nd.length ≤ 15 := by
        simpa [claimAccept] using hacc
      rw [if_pos hprop, List.find?_cons_of_pos _ hacc]
    | false =>
      have hprop : ¬ (7 ≤ nd.length ∧ nd.length ≤ 15) := by
        intro hx
        simp [claimAccept, hx.1, hx.2] at hacc
      rw [if_neg hprop, List.find?_cons_of_neg _ (by simp [hacc])]
      exact hrest

/-- Helper for C7: the source correction coincides with the first accepted
amended hypothesis over the code lengths 3, 2, 1 in that order. -/
lemma correctLeadingZero_eq_specFind (ds : List Char) :
    correctLeadingZero ds =
      ([3, 2, 1].filterMap (fun j => specHypothesis j ds)).find? claimAccept := by
  have h1 := correctLoop_cons_eq ds 1 [] []
    (by simp [correctLoop, List.filterMap, List.find?])
  have h2 := correctLoop_cons_eq ds 2 [(1, minRestFor 1)] [1] h1
  have h3 := correctLoop_cons_eq ds 3 [(2, minRestFor 2), (1, minRestFor 1)] [2, 1] h2
  exact h3

/-- C7 counterexample: on the 8-digit input 10345678 the literal reading of
the claim accepts the 1-digit hypothesis (a zero follows the code and the
7-digit result lies in the acceptance window), yet the source regex for that
hypothesis additionally demands at least 7 digits after the zero, so the
code returns the digits unchanged; the claim as stated predicts the wrong
output there. -/
theorem C7_literal_hypothesis_counterexample :
    normalizePhoneNumber "10345678" = some "10345678" ∧
    claimCorrection ("10345678".data) = "1345678".data ∧
    normalizePhoneNumber "10345678" ≠
      some ⟨claimCorrection ("10345678".data)⟩ := by decide

/-- C7 amended: for every input with at least 8 digits after stripping,
normalization returns the first hypothesis accepted in the order 3, 2, 1,
where a hypothesis needs a zero after the hypothesised code and at least 5,
6, 7 further digits respectively, acceptance means a result of 7 to 15
digits, and the stripped digits are returned unchanged when no hypothesis is
accepted. -/
theorem C7_correction_order_amended (x : String)
    (h8 : 8 ≤ (stripNonDigits x).data.length) :
    normalizePhoneNumber x = some ⟨specCorrection ((stripNonDigits x).data)⟩ := by
  have hlt : ¬ (stripNonDigits x).data.length < 8 := by omega
  show (if (stripNonDigits x).data.length < 8 then none
        else match correctLeadingZero ((stripNonDigits x).data) with
          | some nd => some (⟨nd⟩ : String)
          | none => some ⟨(stripNonDigits x).data⟩) =
    some ⟨specCorrection ((stripNonDigits x).data)⟩
  rw [if_neg hlt, correctLeadingZero_eq_specFind]
  unfold specCorrection
  cases h : (([3, 2, 1].filterMap
      (fun j => specHypothesis j ((stripNonDigits x).data))).find? claimAccept) with
  | none => rfl
  | some nd => rfl

/-- Witness for C7 at the first concrete example of the spec. -/
theorem C7_correction_order_amended_witness :
    8 ≤ (stripNonDigits "+212 0655-927999").data.length ∧
    normalizePhoneNumber "+212 0655-927999" =
      some ⟨specCorrection ((stripNonDigits "+212 0655-927999").data)⟩ :=
  ⟨by decide, C7_correction_order_amended "+212 0655-927999" (by decide)⟩

/-- Helper for C6: a successful correction result has at least 8 characters,
all drawn from the input, as long as every pattern in the list requires a
total length of at least 9, which the source pattern list does. -/
lemma correctLoop_length_mem (ds nd : List Char) :
    ∀ ps : List (Nat × Nat), (∀ p ∈ ps, 9 ≤ p.1 + 1 + p.2) →
      correctLoop ds ps = some nd →
      8 ≤ nd.length ∧ ∀ c ∈ nd, c ∈ ds := by
  intro ps
  induction ps with
  | nil =>
    intro _ h
    simp [correctLoop] at h
  | cons p rest ih =>
    intro hbound h
    simp only [correctLoop] at h
    cases hm : matchPattern p ds with
    | none =>
      rw [hm] at h
      exact ih (fun q hq => hbound q (List.mem_cons_of_mem p hq)) h
    | some m =>
      rw [hm] at h
      have h2 : (if 7 ≤ m.length ∧ m.length ≤ 15 then some m
          else correctLoop ds rest) = some nd := h
      by_cases hacc : 7 ≤ m.length ∧ m.length ≤ 15
      · rw [if_pos hacc] at h2
        injection h2 with hnd
        subst hnd
        unfold matchPattern at hm
        by_cases hcond : p.1 + 1 + p.2 ≤ ds.length ∧ ds.getD p.1 ' ' = '0'
        · rw [if_pos hcond] at hm
          injection hm with hm2
          subst hm2
          constructor
          · have h9 := hbound p (List.mem_cons_self p rest)
            have hle := hcond.1
            rw [List.length_append, List.length_take, List.length_drop,
              Nat.min_eq_left (by omega : p.1 ≤ ds.length)]
            omega
          · intro c hc
            rcases List.mem_append.mp hc with h1 | h1
            · exact List.mem_of_mem_take h1
            · exact List.mem_of_mem_drop h1
        · rw [if_neg hcond] at hm
          exact absurd hm (by simp)
      · rw [if_neg hacc] at h2
        exact ih (fun q hq => hbound q (List.mem_cons_of_mem p hq)) h2

/-- Helper for C6: every successful normalization result has at least 8
characters, all of them digits. -/
lemma normalize_result_digits (x y : String)
    (h : normalizePhoneNumber x = some y) :
    8 ≤ y.data.length ∧ ∀ c ∈ y.data, Char.isDigit c = true := by
  have hx : normalizePhoneNumber x =
      (if (stripNonDigits x).data.length < 8 then none
       else match correctLeadingZero ((stripNonDigits x).data) with
         | some nd => some (⟨nd⟩ : String)
         | none => some ⟨(stripNonDigits x).data⟩) := rfl
  rw [hx] at h
  have hdig : ∀ c ∈ (stripNonDigits x).data, Char.isDigit c = true := by
    intro c hc
    exact (List.mem_filter.mp hc).2
  by_cases h8 : (stripNonDigits x).data.length < 8
  · rw [if_pos h8] at h
    exact absurd h (by simp)
  · rw [if_neg h8] at h
    cases hcz : correctLeadingZero ((stripNonDigits x).data) with
    | none =>
      rw [hcz] at h
      injection h with h2
      subst h2
      refine ⟨?_, hdig⟩
      show 8 ≤ (stripNonDigits x).data.length
      omega
    | some nd =>
      rw [hcz] at h
      injection h with h2
      subst h2
      have hb : ∀ p ∈ countryCodePatterns, 9 ≤ p.1 + 1 + p.2 := by decide
      have hlm := correctLoop_length_mem ((stripNonDigits x).data) nd
        countryCodePatterns hb hcz
      exact ⟨hlm.1, fun c hc => hdig c (hlm.2 c hc)⟩

/-- C6: normalization is idempotent on its own output whenever the second
pass does not trigger the leading-zero correction again, and both concrete
examples named by the claim hold. -/
theorem C6_normalize_idempotent :
    (∀ x y : String, normalizePhoneNumber x = some y →
      correctLeadingZero y.data = none →
      normalizePhoneNumber y = some y) ∧
    normalizePhoneNumber "+212 0655-927999" = some "212655927999" ∧
    normalizePhoneNumber "212655927999" = some "212655927999" := by
  refine ⟨?_, by decide, by decide⟩
  intro x y h1 h2
  obtain ⟨hlen, hdig⟩ := normalize_result_digits x y h1
  have hfix : (stripNonDigits y).data = y.data := by
    show (y.data.filter Char.isDigit) = y.data
    exact List.filter_eq_self.mpr hdig
  have hx : normalizePhoneNumber y =
      (if (stripNonDigits y).data.length < 8 then none
       else match correctLeadingZero ((stripNonDigits y).data) with
         | some nd => some (⟨nd⟩ : String)
         | none => some ⟨(stripNonDigits y).data⟩) := rfl
  rw [hx, hfix, if_neg (by omega), h2]

/-- Witness for C6 chaining the two concrete examples: the first pass
corrects the leading zero, the second pass triggers no correction and
returns its input unchanged. -/
theorem C6_normalize_idempotent_witness :
    normalizePhoneNumber "+212 0655-927999" = some "212655927999" ∧
    correctLeadingZero ("212655927999".data) = none ∧
    normalizePhoneNumber "212655927999" = some "212655927999" :=
  ⟨by decide, by decide,
   C6_normalize_idempotent.1 "+212 0655-927999" "212655927999"
     (by decide) (by decide)⟩

/-- C10: deleting a session that has no persisted row and no live handle
succeeds with the ownership check passing vacuously: the result is not the
Unauthorized error, the client map and the keepalive map are unchanged, and
the sessions table is unchanged because the row delete matches nothing. -/
theorem C10_delete_nonexistent_is_noop
    (cwd : String) (st : ServiceState) (sessionId uid : String)
    (hrec : findSessionRow st.sessions sessionId = none)
    (hcli : st.clients.contains sessionId = false) :
    ∃ st2, deleteSession cwd st sessionId (some uid) = Except.ok st2 ∧
      st2.clients = st.clients ∧ st2.keepalives = st.keepalives ∧
      st2.sessions = st.sessions := by
  have hall : ∀ r ∈ st.sessions, (r.id == sessionId) = false := by
    intro r hr
    have hne := List.find?_eq_none.mp hrec r hr
    cases hb : (r.id == sessionId)
    · rfl
    · exact absurd hb hne
  have hfilter : st.sessions.filter (fun r => r.id ≠ sessionId) = st.sessions := by
    rw [List.filter_eq_self]
    intro r hr
    have h := hall r hr
    simp at h
    simp [h]
  refine ⟨{ st with
      authDirs := st.authDirs.filter
        (fun p => p ≠ deleteSessionAuthPath cwd sessionId),
      sessions := st.sessions.filter (fun r => r.id ≠ sessionId) },
    ?_, rfl, rfl, hfilter⟩
  have hmem : sessionId ∉ st.clients := by simpa using hcli
  simp [deleteSession, hrec, hmem]

/-- Concrete row for the C10 witness. -/
def otherRow : SessionRow :=
  { id := "s1", user_id := some "u1", session_name := "Shop",
    status := "connected", phone_number := some "212655927999",
    qr_code := none, last_seen := some 3, last_connected_at := some 2,
    updated_at := 4, created_at := 1 }

/-- Concrete service state for the C10 witness: one unrelated session with a
live handle, a keepalive and auth material. -/
def otherState : ServiceState :=
  { sessions := [otherRow], clients := ["s1"], keepalives := ["s1"],
    authDirs := ["/app/.wwebjs_auth/session-s1"] }

/-- Witness for C10 at a concrete state and a nonexistent session id. -/
theorem C10_delete_nonexistent_is_noop_witness :
    findSessionRow otherState.sessions "ghost" = none ∧
    otherState.clients.contains "ghost" = false ∧
    ∃ st2, deleteSession "/app" otherState "ghost" (some "u9") = Except.ok st2 ∧
      st2.clients = otherState.clients ∧
      st2.keepalives = otherState.keepalives ∧
      st2.sessions = otherState.sessions :=
  ⟨by decide, by decide,
   C10_delete_nonexistent_is_noop "/app" otherState "ghost" "u9"
     (by decide) (by decide)⟩

end WhatsappBackend
